import Mathlib

/-!
Shallow embedding of the feed-state engine of `src/server.js` (photo-liker).

The HTTP layer, static-file serving and JSON parsing are out of scope (spec §1);
the embedding covers the core: item store, reaction counters, comment ledger,
ranking, pagination and serialization.

Nondeterministic inputs of the JavaScript code (`Date.now()`, `Math.random()`)
are passed in explicitly: every operation that creates a photo or a comment
receives the fresh identifier(s) and the current clock value as parameters.
Mutation of `feedState.photos` is modelled by explicit state passing: each
operation returns its result together with the post-state of the store.
-/

namespace PhotoLiker

/-- `CAT_URL` from server.js line 7. -/
def CAT_URL : String := "https://cataas.com/cat/gif"

/-- `INITIAL_PHOTO_COUNT` from server.js line 8. -/
def INITIAL_PHOTO_COUNT : Nat := 18

/-- `MAX_COMMENTS_PER_PHOTO` from server.js line 14. -/
def MAX_COMMENTS_PER_PHOTO : Nat := 80

/-- `MAX_COMMENT_LENGTH` from server.js line 15. -/
def MAX_COMMENT_LENGTH : Nat := 240

/-- `DEFAULT_PAGE_SIZE` from server.js line 16. -/
def DEFAULT_PAGE_SIZE : Nat := 8

/-- A comment entry, as built in `addComment` (server.js lines 99-104). -/
structure Comment where
  id : String
  text : String
  photoId : String
  timestamp : String
deriving DecidableEq

/-- A photo record, as built in `createPhoto` (server.js lines 18-27).
`updatedAt` is the `Date.now()` millisecond clock, modelled as `Nat`. -/
structure Photo where
  id : String
  url : String
  likes : Nat
  dislikes : Nat
  comments : List Comment
  updatedAt : Nat
deriving DecidableEq

/-- `createPhoto` (server.js lines 18-27). The JavaScript id is
`cat-${Date.now()}-${random hex}`; the generated id and the clock value are
passed in as `freshId` and `now`. -/
def createPhoto (freshId : String) (now : Nat) : Photo :=
  { id := freshId
    url := CAT_URL
    likes := 0
    dislikes := 0
    comments := []
    updatedAt := now }

/-- The loop body of `ensurePhotos` (server.js lines 29-33), with explicit
fuel. Each iteration of the `while` loop grows the list by one, so the loop
runs at most `minCount - photos.length` times; `ensurePhotos` supplies exactly
that much fuel. `gen k` is the (id, clock) pair that `createPhoto()` draws for
the photo pushed when the store has length `k`. -/
def ensurePhotosGo (gen : Nat → String × Nat) (minCount : Nat) :
    Nat → List Photo → List Photo
  | 0, photos => photos
  | fuel + 1, photos =>
    if photos.length < minCount then
      ensurePhotosGo gen minCount fuel
        (photos ++ [createPhoto (gen photos.length).1 (gen photos.length).2])
    else photos

/-- `ensurePhotos` (server.js lines 29-33): grow the store until it has at
least `minCount` photos. -/
def ensurePhotos (gen : Nat → String × Nat) (minCount : Nat)
    (photos : List Photo) : List Photo :=
  ensurePhotosGo gen minCount (minCount - photos.length) photos

/-- One step of `text.replace(/\s+/g, ' ')` (server.js line 67): each maximal
run of whitespace characters is replaced by a single space. The boolean flag
records whether the previous character was part of a whitespace run. -/
def collapseWsAux : Bool → List Char → List Char
  | _, [] => []
  | prevWs, c :: rest =>
    if c.isWhitespace then
      if prevWs then collapseWsAux true rest
      else ' ' :: collapseWsAux true rest
    else c :: collapseWsAux false rest

/-- `text.replace(/\s+/g, ' ')` (server.js line 67). -/
def collapseWs (cs : List Char) : List Char :=
  collapseWsAux false cs

/-- `.trim()` (server.js line 67): strip leading and trailing whitespace. -/
def trimChars (cs : List Char) : List Char :=
  ((cs.dropWhile Char.isWhitespace).reverse.dropWhile Char.isWhitespace).reverse

/-- `sanitizeText` (server.js lines 66-68): collapse whitespace runs, trim,
then truncate to `MAX_COMMENT_LENGTH` characters. -/
def sanitizeText (text : String) : String :=
  String.mk ((trimChars (collapseWs text.toList)).take MAX_COMMENT_LENGTH)

/-- JavaScript truthiness of the optional `photoId` argument: `undefined`
(modelled `none`) and the empty string are falsy (server.js line 71). -/
def idTruthy : Option String → Bool
  | none => false
  | some s => s != ""

/-- `getOrCreatePhoto` (server.js lines 70-79), as a state transformer.
Returns the index of the resolved photo in the post-state (the JavaScript
function returns a live reference into `feedState.photos`; the index models
that aliasing). `none` as first component models the `undefined` that
`feedState.photos[0]` yields on an empty store. -/
def getOrCreatePhoto (freshId : String) (now : Nat) (photoId : Option String)
    (photos : List Photo) : Option Nat × List Photo :=
  if !(idTruthy photoId) then
    (if photos.isEmpty then none else some 0, photos)
  else
    let pid := photoId.getD ""
    match photos.findIdx? (fun p => p.id == pid) with
    | some i => (some i, photos)
    | none =>
      let photo := { createPhoto freshId now with id := pid }
      (some 0, photo :: photos)

/-- `addReaction` (server.js lines 81-90), as a state transformer. A `none`
result models the TypeError the JavaScript code would raise if
`getOrCreatePhoto` returned `undefined` (empty store); this never happens in
the program, which seeds the store at startup. -/
def addReaction (freshId : String) (now : Nat) (action : String)
    (photoId : Option String) (photos : List Photo) :
    Option Photo × List Photo :=
  match getOrCreatePhoto freshId now photoId photos with
  | (none, st) => (none, st)
  | (some i, st) =>
    match st[i]? with
    | none => (none, st)
    | some p =>
      let p1 :=
        if action = "dislike" then { p with dislikes := p.dislikes + 1 }
        else { p with likes := p.likes + 1 }
      let p2 := { p1 with updatedAt := now }
      (some p2, st.set i p2)

/-- The failure modes of `addComment`: `EmptyInput` is the
`Comment text is required.` error (server.js line 95); `StoreFault` models the
TypeError on an empty store (unreachable in the seeded program). -/
inductive CommentError where
  | EmptyInput
  | StoreFault
deriving DecidableEq

/-- The comment entry built in `addComment` (server.js lines 99-104):
`cleanText` together with the generated id, the owning photo id and the
ISO timestamp. -/
def commentEntry (entryId entryTs cleanText pid : String) : Comment :=
  { id := entryId, text := cleanText, photoId := pid, timestamp := entryTs }

/-- The ledger update of `addComment` (server.js lines 105-108): push the
entry, then `shift()` (drop the oldest) if the length exceeds
`MAX_COMMENTS_PER_PHOTO`. -/
def pushComment (entry : Comment) (comments : List Comment) : List Comment :=
  if (comments ++ [entry]).length > MAX_COMMENTS_PER_PHOTO
  then (comments ++ [entry]).drop 1
  else comments ++ [entry]

/-- `addComment` (server.js lines 92-111), as a state transformer. `entryId`
and `entryTs` are the generated comment id and ISO timestamp; `now` is the
`Date.now()` value written to `updatedAt`. -/
def addComment (freshId entryId entryTs : String) (now : Nat) (text : String)
    (photoId : Option String) (photos : List Photo) :
    Except CommentError Photo × List Photo :=
  let cleanText := sanitizeText text
  if cleanText = "" then (.error .EmptyInput, photos)
  else
    match getOrCreatePhoto freshId now photoId photos with
    | (none, st) => (.error .StoreFault, st)
    | (some i, st) =>
      match st[i]? with
      | none => (.error .StoreFault, st)
      | some p =>
        let p2 := { p with
          comments := pushComment (commentEntry entryId entryTs cleanText p.id) p.comments
          updatedAt := now }
        (.ok p2, st.set i p2)

/-- The accumulator of `computeTotals` (server.js lines 113-123). -/
structure Totals where
  likes : Nat
  dislikes : Nat
  comments : Nat
deriving DecidableEq

/-- `computeTotals` (server.js lines 113-123). -/
def computeTotals (photos : List Photo) : Totals :=
  photos.foldl
    (fun acc p =>
      { likes := acc.likes + p.likes
        dislikes := acc.dislikes + p.dislikes
        comments := acc.comments + p.comments.length })
    { likes := 0, dislikes := 0, comments := 0 }

/-- The external view produced by `serializePhoto` (server.js lines 125-131):
the photo's own fields plus the derived `activity` and the trimmed,
reversed comment tail. -/
structure PhotoView where
  id : String
  url : String
  likes : Nat
  dislikes : Nat
  updatedAt : Nat
  activity : Nat
  comments : List Comment
deriving DecidableEq

/-- `serializePhoto` (server.js lines 125-131). `[...photo.comments].slice(-6)`
is the suffix of the last `min 6 len` comments, i.e. `drop (len - 6)`; the
spread copies the array, so the `.reverse()` acts on the copy only. -/
def serializePhoto (photo : Photo) : PhotoView :=
  { id := photo.id
    url := photo.url
    likes := photo.likes
    dislikes := photo.dislikes
    updatedAt := photo.updatedAt
    activity := photo.likes + photo.dislikes + photo.comments.length
    comments := ((photo.comments.drop (photo.comments.length - 6))).reverse }

/-- The comparator passed to `.sort` in `getFeed` (server.js lines 136-141),
returning a signed number exactly as the JavaScript arrow function does. -/
def feedCmp (a b : Photo) : Int :=
  let activityA : Int := (a.likes : Int) + (a.dislikes : Int) + (a.comments.length : Int)
  let activityB : Int := (b.likes : Int) + (b.dislikes : Int) + (b.comments.length : Int)
  if activityB = activityA then (b.updatedAt : Int) - (a.updatedAt : Int)
  else activityB - activityA

/-- `a` may precede `b` under the comparator: `feedCmp a b ≤ 0`. -/
def feedLe (a b : Photo) : Bool :=
  decide (feedCmp a b ≤ 0)

/-- `[...feedState.photos].sort(cmp)` (server.js lines 136-141). JavaScript
`Array.prototype.sort` is stable and, for a consistent comparator, produces
the unique stable order in which `a` precedes `b` whenever `cmp(a,b) < 0`;
merge sort with `le a b := cmp a b ≤ 0` computes exactly that order. The
spread copies the array, so `feedState.photos` itself is not reordered. -/
def rankPhotos (photos : List Photo) : List Photo :=
  photos.mergeSort feedLe

/-- `Array.prototype.slice(start, stop)` for `0 ≤ start ≤ stop`
(server.js line 143). -/
def jsSlice (l : List α) (start stop : Nat) : List α :=
  (l.take stop).drop start

/-- The result record of `getFeed` (server.js lines 145-149). -/
structure FeedResult where
  totals : Totals
  photos : List PhotoView
  nextCursor : Nat
deriving DecidableEq

/-- `getFeed` (server.js lines 133-150), as a state transformer: grow the
store to `cursor + limit + 2`, rank a copy, slice the page, serialize. -/
def getFeed (gen : Nat → String × Nat) (cursor limit : Nat)
    (photos : List Photo) : FeedResult × List Photo :=
  let grown := ensurePhotos gen (cursor + limit + 2) photos
  let ordered := rankPhotos grown
  let page := (jsSlice ordered cursor (cursor + limit)).map serializePhoto
  ({ totals := computeTotals ordered
     photos := page
     nextCursor := cursor + limit }, grown)

/-- The store at startup: `ensurePhotos(INITIAL_PHOTO_COUNT)` on an empty
store (server.js line 35). -/
def initialPhotos (gen : Nat → String × Nat) : List Photo :=
  ensurePhotos gen INITIAL_PHOTO_COUNT []

/-- The derived activity score of a photo (spec §3): likes + dislikes +
comment count. Used to state ranking properties. -/
def activity (p : Photo) : Nat :=
  p.likes + p.dislikes + p.comments.length

/-- The identifiers currently in the store, in store order. -/
def storeIds (photos : List Photo) : List String :=
  photos.map (fun p => p.id)

/-! ## Helper lemmas -/

/-- `feedLe` in propositional form: descending lexicographic order on
(activity, updatedAt). -/
theorem feedLe_iff (a b : Photo) :
    feedLe a b = true ↔
      activity b < activity a ∨
        (activity a = activity b ∧ b.updatedAt ≤ a.updatedAt) := by
  unfold feedLe feedCmp activity
  simp only [decide_eq_true_eq]
  split <;> omega

/-- The feed comparator order is total. -/
theorem feedLe_total (a b : Photo) : (feedLe a b || feedLe b a) = true := by
  rw [Bool.or_eq_true, feedLe_iff, feedLe_iff]
  omega

/-- The feed comparator order is transitive. -/
theorem feedLe_trans (a b c : Photo) :
    feedLe a b = true → feedLe b c = true → feedLe a c = true := by
  rw [feedLe_iff, feedLe_iff, feedLe_iff]
  omega

/-- Closed form of the `ensurePhotos` loop body: with `fuel` iterations
allowed, the loop appends one freshly created photo for each store length
from `photos.length` up to the target (or until fuel runs out). -/
theorem ensurePhotosGo_eq (gen : Nat → String × Nat) (m : Nat) :
    ∀ (fuel : Nat) (photos : List Photo),
      ensurePhotosGo gen m fuel photos =
        photos ++ (List.range' photos.length (min fuel (m - photos.length))).map
          (fun k => createPhoto (gen k).1 (gen k).2) := by
  intro fuel
  induction fuel with
  | zero => intro photos; simp [ensurePhotosGo]
  | succ fuel ih =>
    intro photos
    rw [ensurePhotosGo]
    by_cases h : photos.length < m
    · rw [if_pos h, ih]
      have hlen : (photos ++ [createPhoto (gen photos.length).1 (gen photos.length).2]).length
          = photos.length + 1 := by simp
      rw [hlen, List.append_assoc]
      have hm : m - photos.length = (m - (photos.length + 1)) + 1 := by omega
      rw [hm, Nat.succ_min_succ, List.range'_succ]
      simp
    · rw [if_neg h]
      have hm : m - photos.length = 0 := by omega
      simp [hm]

/-- Closed form of `ensurePhotos`. -/
theorem ensurePhotos_eq (gen : Nat → String × Nat) (m : Nat) (photos : List Photo) :
    ensurePhotos gen m photos =
      photos ++ (List.range' photos.length (m - photos.length)).map
        (fun k => createPhoto (gen k).1 (gen k).2) := by
  unfold ensurePhotos
  rw [ensurePhotosGo_eq, Nat.min_self]

/-- `ensurePhotos` grows the store exactly to `max photos.length m`. -/
theorem ensurePhotos_length (gen : Nat → String × Nat) (m : Nat) (photos : List Photo) :
    (ensurePhotos gen m photos).length = max photos.length m := by
  rw [ensurePhotos_eq]
  simp
  omega

/-- The identifiers after `ensurePhotos`: the old ones followed by the
generated ones. -/
theorem storeIds_ensurePhotos (gen : Nat → String × Nat) (m : Nat) (photos : List Photo) :
    storeIds (ensurePhotos gen m photos) =
      storeIds photos ++ (List.range' photos.length (m - photos.length)).map
        (fun k => (gen k).1) := by
  rw [ensurePhotos_eq]
  simp [storeIds, createPhoto, Function.comp]

/-- Overwriting a slot with a photo of the same identifier leaves the
identifier list unchanged. -/
theorem storeIds_set (photos : List Photo) (i : Nat) (p₀ p' : Photo)
    (h : photos[i]? = some p₀) (hid : p'.id = p₀.id) :
    storeIds (photos.set i p') = storeIds photos := by
  induction photos generalizing i with
  | nil => simp at h
  | cons q qs ih =>
    cases i with
    | zero =>
      simp only [List.getElem?_cons_zero, Option.some.injEq] at h
      simp [storeIds, hid, h]
    | succ j =>
      simp only [List.getElem?_cons_succ] at h
      have := ih j h
      simpa [storeIds] using this

/-- With a falsy identifier (absent or empty string) and a non-empty store,
`getOrCreatePhoto` returns the first photo and leaves the store unchanged. -/
theorem getOrCreatePhoto_falsy (freshId : String) (now : Nat) (photoId : Option String)
    (photos : List Photo) (h : idTruthy photoId = false) (hne : photos ≠ []) :
    getOrCreatePhoto freshId now photoId photos = (some 0, photos) := by
  unfold getOrCreatePhoto
  rw [h]
  simp [List.isEmpty_iff, hne]

/-- With a non-empty identifier found in the store, `getOrCreatePhoto`
returns the index of the first match and leaves the store unchanged. -/
theorem getOrCreatePhoto_found (freshId : String) (now : Nat) (pid : String)
    (photos : List Photo) (i : Nat) (hpid : pid ≠ "")
    (hfind : photos.findIdx? (fun p => p.id == pid) = some i) :
    getOrCreatePhoto freshId now (some pid) photos = (some i, photos) := by
  have ht : idTruthy (some pid) = true := by simp [idTruthy, hpid]
  unfold getOrCreatePhoto
  rw [ht]
  simp [hfind]

/-- With a non-empty identifier absent from the store, `getOrCreatePhoto`
creates a freshly-updated photo carrying that identifier and pushes it to
the front. -/
theorem getOrCreatePhoto_create (freshId : String) (now : Nat) (pid : String)
    (photos : List Photo) (hpid : pid ≠ "")
    (hfind : photos.findIdx? (fun p => p.id == pid) = none) :
    getOrCreatePhoto freshId now (some pid) photos =
      (some 0, { createPhoto freshId now with id := pid } :: photos) := by
  have ht : idTruthy (some pid) = true := by simp [idTruthy, hpid]
  unfold getOrCreatePhoto
  rw [ht]
  simp [hfind]

/-- Whenever `getOrCreatePhoto` returns an index, that index points at a
photo of the returned store. -/
theorem getOrCreatePhoto_resolves (freshId : String) (now : Nat)
    (photoId : Option String) (photos : List Photo) (i : Nat) (st : List Photo)
    (h : getOrCreatePhoto freshId now photoId photos = (some i, st)) :
    ∃ p, st[i]? = some p := by
  unfold getOrCreatePhoto at h
  by_cases ht : idTruthy photoId
  · rw [ht] at h
    simp only [Bool.not_true, Bool.false_eq_true, if_false] at h
    rcases hfind : photos.findIdx? (fun p => p.id == photoId.getD "") with _ | j
    · rw [hfind] at h
      simp only [Prod.mk.injEq, Option.some.injEq] at h
      obtain ⟨hi, hst⟩ := h
      subst hi
      subst hst
      exact ⟨_, List.getElem?_cons_zero⟩
    · rw [hfind] at h
      simp only [Prod.mk.injEq, Option.some.injEq] at h
      obtain ⟨hi, hst⟩ := h
      subst hi
      subst hst
      obtain ⟨hlt, -, -⟩ := List.findIdx?_eq_some_iff_getElem.mp hfind
      exact ⟨_, List.getElem?_eq_getElem hlt⟩
  · rw [Bool.not_eq_true] at ht
    rw [ht] at h
    simp only [Bool.not_false, if_true] at h
    by_cases he : photos.isEmpty
    · rw [if_pos he] at h
      simp at h
    · rw [if_neg he] at h
      simp only [Prod.mk.injEq, Option.some.injEq] at h
      obtain ⟨hi, hst⟩ := h
      subst hi
      subst hst
      rcases photos with _ | ⟨q, qs⟩
      · simp at he
      · exact ⟨q, by simp⟩

/-- The store after `getOrCreatePhoto` is either unchanged or has exactly one
new photo, carrying the requested identifier (which was not present before),
pushed to the front. -/
theorem getOrCreatePhoto_shapes (freshId : String) (now : Nat)
    (photoId : Option String) (photos : List Photo) :
    (getOrCreatePhoto freshId now photoId photos).2 = photos ∨
    ∃ pid, photoId = some pid ∧ pid ≠ "" ∧ (∀ p ∈ photos, p.id ≠ pid) ∧
      (getOrCreatePhoto freshId now photoId photos).2 =
        { createPhoto freshId now with id := pid } :: photos := by
  by_cases ht : idTruthy photoId
  · rcases photoId with _ | pid
    · simp [idTruthy] at ht
    · have hpid : pid ≠ "" := by
        intro hc
        simp [idTruthy, hc] at ht
      rcases hfind : photos.findIdx? (fun p => p.id == pid) with _ | j
      · right
        refine ⟨pid, rfl, hpid, ?_, ?_⟩
        · intro p hp
          have := (List.findIdx?_eq_none_iff.mp hfind) p hp
          simpa using this
        · rw [getOrCreatePhoto_create freshId now pid photos hpid hfind]
      · left
        rw [getOrCreatePhoto_found freshId now pid photos j hpid hfind]
  · left
    rw [Bool.not_eq_true] at ht
    unfold getOrCreatePhoto
    rw [ht]
    simp

/-- Whenever `getOrCreatePhoto` receives a non-empty store it resolves a
photo: the returned index is always `some`. -/
theorem getOrCreatePhoto_isSome (freshId : String) (now : Nat)
    (photoId : Option String) (photos : List Photo) (hne : photos ≠ []) :
    ∃ i st, getOrCreatePhoto freshId now photoId photos = (some i, st) := by
  by_cases ht : idTruthy photoId
  · rcases photoId with _ | pid
    · simp [idTruthy] at ht
    · have hpid : pid ≠ "" := by
        intro hc
        simp [idTruthy, hc] at ht
      rcases hfind : photos.findIdx? (fun p => p.id == pid) with _ | j
      · exact ⟨0, _, getOrCreatePhoto_create freshId now pid photos hpid hfind⟩
      · exact ⟨j, photos, getOrCreatePhoto_found freshId now pid photos j hpid hfind⟩
  · rw [Bool.not_eq_true] at ht
    exact ⟨0, photos, getOrCreatePhoto_falsy freshId now photoId photos ht hne⟩

/-- `addComment` on text that normalizes to empty: rejected before any state
is touched. -/
theorem addComment_empty (freshId entryId entryTs : String) (now : Nat)
    (text : String) (photoId : Option String) (photos : List Photo)
    (h : sanitizeText text = "") :
    addComment freshId entryId entryTs now text photoId photos =
      (.error .EmptyInput, photos) := by
  unfold addComment
  simp [h]

/-- The success path of `addComment`, given the resolution of the target
photo: push the entry, evict the head on overflow, stamp `updatedAt`. -/
theorem addComment_success (freshId entryId entryTs : String) (now : Nat)
    (text : String) (photoId : Option String) (photos : List Photo)
    (i : Nat) (st : List Photo) (p₀ : Photo)
    (hcln : sanitizeText text ≠ "")
    (hres : getOrCreatePhoto freshId now photoId photos = (some i, st))
    (hp : st[i]? = some p₀) :
    addComment freshId entryId entryTs now text photoId photos =
      (.ok { p₀ with
              comments := pushComment
                (commentEntry entryId entryTs (sanitizeText text) p₀.id) p₀.comments
              updatedAt := now },
        st.set i { p₀ with
              comments := pushComment
                (commentEntry entryId entryTs (sanitizeText text) p₀.id) p₀.comments
              updatedAt := now }) := by
  unfold addComment
  rw [if_neg hcln, hres]
  simp only [hp]

/-- Length of the updated ledger: grows by one until the cap, then stays. -/
theorem pushComment_length (entry : Comment) (comments : List Comment)
    (h : comments.length ≤ MAX_COMMENTS_PER_PHOTO) :
    (pushComment entry comments).length =
      min (comments.length + 1) MAX_COMMENTS_PER_PHOTO := by
  unfold pushComment
  split
  · next hgt =>
    simp only [List.length_append, List.length_singleton, List.length_drop] at hgt ⊢
    omega
  · next hle =>
    simp only [List.length_append, List.length_singleton] at hle ⊢
    omega

/-- When the push overflows the cap, the oldest comment is evicted (FIFO). -/
theorem pushComment_overflow (entry : Comment) (comments : List Comment)
    (h : comments.length + 1 > MAX_COMMENTS_PER_PHOTO) :
    pushComment entry comments = comments.drop 1 ++ [entry] := by
  unfold pushComment
  rw [if_pos (by simp; omega)]
  rw [List.drop_append_of_le_length (by unfold MAX_COMMENTS_PER_PHOTO at h; omega)]

/-! ## Claim theorems -/

/-- Claim C1: for every cursor ≥ 0 and limit > 0, the page slice
`ordered.slice(cursor, cursor + limit)` (server.js line 143) holds exactly
`min limit (items.length - cursor)` items (0 when `cursor ≥ items.length`),
its i-th entry is the ranked entry at position `cursor + i` (the contiguous
slice clamped to the available length), and `getFeed` returns
`nextCursor = cursor + limit` unconditionally, even past the end. -/
theorem C1_pagination (items : List Photo) (cursor limit : Nat) (hl : 0 < limit)
    (gen : Nat → String × Nat) (st : List Photo) :
    (jsSlice items cursor (cursor + limit)).length =
      min limit (items.length - cursor) ∧
    (∀ i : Nat, (jsSlice items cursor (cursor + limit))[i]? =
      if i < limit then items[cursor + i]? else none) ∧
    ((getFeed gen cursor limit st).1).nextCursor = cursor + limit := by
  refine ⟨?_, ?_, rfl⟩
  · unfold jsSlice
    simp only [List.length_drop, List.length_take]
    omega
  · intro i
    unfold jsSlice
    rw [List.getElem?_drop, List.getElem?_take]
    split
    · rw [if_pos (by omega)]
    · rw [if_neg (by omega)]

/-- Witness for C1: cursor 1, limit 2 on a three-photo list. -/
theorem C1_pagination_witness :
    0 < 2 ∧
    ((jsSlice [createPhoto "a" 0, createPhoto "b" 1, createPhoto "c" 2] 1 (1 + 2)).length =
        min 2 (([createPhoto "a" 0, createPhoto "b" 1, createPhoto "c" 2] : List Photo).length - 1) ∧
      (∀ i : Nat, (jsSlice [createPhoto "a" 0, createPhoto "b" 1, createPhoto "c" 2] 1 (1 + 2))[i]? =
        if i < 2 then ([createPhoto "a" 0, createPhoto "b" 1, createPhoto "c" 2] : List Photo)[1 + i]? else none) ∧
      ((getFeed (fun k => ("g", k)) 1 2 []).1).nextCursor = 1 + 2) :=
  ⟨by decide,
   C1_pagination [createPhoto "a" 0, createPhoto "b" 1, createPhoto "c" 2] 1 2
     (by decide) (fun k => ("g", k)) []⟩

/-- Claim C8: the serializer's projection carries the ledger's
most-recent-6 tail in most-recent-first order (the ledger is stored
oldest-first, so that tail is `take 6` of its reversal) together with the
computed activity; identifier, source url, counters and timestamp are
copied unchanged; and producing the projections inside `getFeed` leaves the
stored photos untouched — the post-state is exactly the `ensurePhotos`
growth, independent of ranking and serialization. -/
theorem C8_serializer (p : Photo) (gen : Nat → String × Nat)
    (cursor limit : Nat) (st : List Photo) :
    (serializePhoto p).comments = p.comments.reverse.take 6 ∧
    (serializePhoto p).comments.length = min 6 p.comments.length ∧
    (serializePhoto p).activity = p.likes + p.dislikes + p.comments.length ∧
    (serializePhoto p).id = p.id ∧
    (serializePhoto p).url = p.url ∧
    (serializePhoto p).likes = p.likes ∧
    (serializePhoto p).dislikes = p.dislikes ∧
    (serializePhoto p).updatedAt = p.updatedAt ∧
    (getFeed gen cursor limit st).2 = ensurePhotos gen (cursor + limit + 2) st := by
  refine ⟨?_, ?_, rfl, rfl, rfl, rfl, rfl, rfl, rfl⟩
  · unfold serializePhoto
    rw [List.take_reverse]
  · unfold serializePhoto
    simp only [List.length_reverse, List.length_drop]
    omega

/-- Claim C10: when `addComment` rejects with `EmptyInput`, the whole store
is returned unchanged: the emptiness check precedes item resolution, so no
item is lazily created for an unknown identifier, no comment is appended and
no `updatedAt` timestamp is touched. -/
theorem C10_empty_input_frame (freshId entryId entryTs : String) (now : Nat)
    (text : String) (photoId : Option String) (photos : List Photo)
    (h : sanitizeText text = "") :
    addComment freshId entryId entryTs now text photoId photos =
      (.error .EmptyInput, photos) :=
  addComment_empty freshId entryId entryTs now text photoId photos h

/-- Witness for C10: whitespace-only text with an unknown identifier leaves
the one-photo store exactly as it was. -/
theorem C10_empty_input_frame_witness :
    sanitizeText "   " = "" ∧
    addComment "f" "e" "t" 9 "   " (some "unknown") [createPhoto "a" 0] =
      (.error .EmptyInput, [createPhoto "a" 0]) :=
  ⟨by decide,
   C10_empty_input_frame "f" "e" "t" 9 "   " (some "unknown")
     [createPhoto "a" 0] (by decide)⟩

/-- On a non-empty store, `addComment` with text that normalizes non-empty
always succeeds. -/
theorem addComment_ok (freshId entryId entryTs : String) (now : Nat)
    (text : String) (photoId : Option String) (photos : List Photo)
    (hne : photos ≠ []) (hcln : sanitizeText text ≠ "") :
    ∃ p st, addComment freshId entryId entryTs now text photoId photos =
      (.ok p, st) := by
  obtain ⟨i, st, hres⟩ := getOrCreatePhoto_isSome freshId now photoId photos hne
  obtain ⟨p₀, hp⟩ := getOrCreatePhoto_resolves freshId now photoId photos i st hres
  exact ⟨_, _, addComment_success freshId entryId entryTs now text photoId photos
    i st p₀ hcln hres hp⟩

/-- `addComment` never reports `EmptyInput` when the normalized text is
non-empty, whatever the store looks like. -/
theorem addComment_not_empty_input (freshId entryId entryTs : String) (now : Nat)
    (text : String) (photoId : Option String) (photos : List Photo)
    (hcln : sanitizeText text ≠ "") :
    (addComment freshId entryId entryTs now text photoId photos).1 ≠
      .error .EmptyInput := by
  unfold addComment
  rw [if_neg hcln]
  rcases hg : getOrCreatePhoto freshId now photoId photos with ⟨oi, st⟩
  cases oi with
  | none => simp
  | some i =>
    rcases hp : st[i]? with _ | p₀ <;> simp [hp]

/-- Claim C4: `addComment` fails with `EmptyInput` exactly when the raw text
normalizes to the empty string; normalization collapses whitespace runs to a
single space, trims, and truncates to `MAX_COMMENT_LENGTH = 240`; the text
`"  hello   world  "` normalizes to `"hello world"` and its append succeeds
on a non-empty store, while empty or whitespace-only text is rejected. -/
theorem C4_empty_input_iff (freshId entryId entryTs : String) (now : Nat)
    (text : String) (photoId : Option String) (photos : List Photo)
    (hne : photos ≠ []) :
    ((addComment freshId entryId entryTs now text photoId photos).1 =
        .error .EmptyInput ↔ sanitizeText text = "") ∧
    (sanitizeText text).length ≤ MAX_COMMENT_LENGTH ∧
    sanitizeText "  hello   world  " = "hello world" ∧
    sanitizeText "   " = "" ∧
    sanitizeText "" = "" ∧
    (sanitizeText text ≠ "" →
      ∃ p st, addComment freshId entryId entryTs now text photoId photos =
        (.ok p, st)) := by
  refine ⟨⟨?_, ?_⟩, ?_, by decide, by decide, by decide,
    addComment_ok freshId entryId entryTs now text photoId photos hne⟩
  · intro h
    by_contra hcln
    exact addComment_not_empty_input freshId entryId entryTs now text photoId
      photos hcln h
  · intro h
    rw [addComment_empty freshId entryId entryTs now text photoId photos h]
  · unfold sanitizeText
    rw [String.length_mk]
    exact List.length_take_le _ _

/-- Witness for C4 on a one-photo store with the text from the claim. -/
theorem C4_empty_input_iff_witness :
    ([createPhoto "a" 0] : List Photo) ≠ [] ∧
    (((addComment "f" "e" "t" 9 "  hello   world  " none [createPhoto "a" 0]).1 =
        .error .EmptyInput ↔ sanitizeText "  hello   world  " = "") ∧
      (sanitizeText "  hello   world  ").length ≤ MAX_COMMENT_LENGTH ∧
      sanitizeText "  hello   world  " = "hello world" ∧
      sanitizeText "   " = "" ∧
      sanitizeText "" = "" ∧
      (sanitizeText "  hello   world  " ≠ "" →
        ∃ p st, addComment "f" "e" "t" 9 "  hello   world  " none [createPhoto "a" 0] =
          (.ok p, st))) :=
  ⟨by decide,
   C4_empty_input_iff "f" "e" "t" 9 "  hello   world  " none
     [createPhoto "a" 0] (by decide)⟩

/-- Claim C5: a reaction of kind `"dislike"` increments the dislike counter
by exactly one, any other kind string (including `"like"` and unrecognized
strings such as `"explode"`) increments the like counter by exactly one, the
reaction is never rejected on a non-empty store, and nothing else of the
photo changes except the `updatedAt` stamp; since a fresh photo starts at
zero likes and dislikes, a first `"dislike"` yields counts (0, 1) and any
other first kind yields (1, 0). -/
theorem C5_reaction_counts (freshId : String) (now : Nat) (action : String)
    (photoId : Option String) (photos : List Photo) (hne : photos ≠ []) :
    ∃ i st p₀ p',
      getOrCreatePhoto freshId now photoId photos = (some i, st) ∧
      st[i]? = some p₀ ∧
      addReaction freshId now action photoId photos = (some p', st.set i p') ∧
      p'.dislikes = p₀.dislikes + (if action = "dislike" then 1 else 0) ∧
      p'.likes = p₀.likes + (if action = "dislike" then 0 else 1) ∧
      p'.updatedAt = now ∧ p'.id = p₀.id ∧ p'.url = p₀.url ∧
      p'.comments = p₀.comments := by
  obtain ⟨i, st, hres⟩ := getOrCreatePhoto_isSome freshId now photoId photos hne
  obtain ⟨p₀, hp⟩ := getOrCreatePhoto_resolves freshId now photoId photos i st hres
  refine ⟨i, st, p₀,
    { (if action = "dislike" then { p₀ with dislikes := p₀.dislikes + 1 }
       else { p₀ with likes := p₀.likes + 1 }) with updatedAt := now },
    hres, hp, ?_, ?_, ?_, ?_, ?_, ?_, ?_⟩
  · unfold addReaction
    rw [hres]
    simp only [hp]
  all_goals by_cases ha : action = "dislike" <;> simp [ha]

/-- Witness for C5: the unrecognized kind `"explode"` on a store holding one
fresh photo yields likes 1, dislikes 0. -/
theorem C5_reaction_counts_witness :
    ([createPhoto "a" 0] : List Photo) ≠ [] ∧
    ∃ i st p₀ p',
      getOrCreatePhoto "f" 9 none [createPhoto "a" 0] = (some i, st) ∧
      st[i]? = some p₀ ∧
      addReaction "f" 9 "explode" none [createPhoto "a" 0] = (some p', st.set i p') ∧
      p'.dislikes = p₀.dislikes + (if "explode" = "dislike" then 1 else 0) ∧
      p'.likes = p₀.likes + (if "explode" = "dislike" then 0 else 1) ∧
      p'.updatedAt = 9 ∧ p'.id = p₀.id ∧ p'.url = p₀.url ∧
      p'.comments = p₀.comments :=
  ⟨by decide, C5_reaction_counts "f" 9 "explode" none [createPhoto "a" 0] (by decide)⟩

/-- Claim C2: the feed ranking is a permutation of the store, sorted by
activity (likes + dislikes + comment count) descending with ties broken by
`updatedAt` descending; it is deterministic — a pure function of the
snapshot — and stable within a single ranking call: two items equal on both
keys keep the relative order they had in the store. -/
theorem C2_ranking (photos : List Photo) :
    (rankPhotos photos).Perm photos ∧
    (rankPhotos photos).Pairwise (fun a b =>
      activity b < activity a ∨
        (activity a = activity b ∧ b.updatedAt ≤ a.updatedAt)) ∧
    (∀ a b, activity a = activity b → a.updatedAt = b.updatedAt →
      List.Sublist [a, b] photos → List.Sublist [a, b] (rankPhotos photos)) := by
  refine ⟨List.mergeSort_perm photos feedLe, ?_, ?_⟩
  · have h := @List.sorted_mergeSort Photo feedLe feedLe_trans feedLe_total photos
    exact h.imp (fun hab => (feedLe_iff _ _).mp hab)
  · intro a b hact hupd hsub
    refine List.sublist_mergeSort feedLe_trans feedLe_total ?_ hsub
    refine List.pairwise_cons.mpr ⟨?_, List.pairwise_singleton _ _⟩
    intro b' hb'
    rcases List.mem_singleton.mp hb' with rfl
    exact (feedLe_iff _ _).mpr (Or.inr ⟨hact, le_of_eq hupd.symm⟩)

/-- Witness for C2: a three-photo store whose first two photos agree on both
ranking keys; they stay in order in the ranked output. -/
theorem C2_ranking_witness :
    activity { id := "a", url := "u", likes := 1, dislikes := 0, comments := [],
               updatedAt := 5 } =
      activity { id := "b", url := "u", likes := 0, dislikes := 1, comments := [],
                 updatedAt := 5 } ∧
    List.Sublist
      [{ id := "a", url := "u", likes := 1, dislikes := 0, comments := [],
         updatedAt := 5 },
       { id := "b", url := "u", likes := 0, dislikes := 1, comments := [],
         updatedAt := 5 }]
      [{ id := "a", url := "u", likes := 1, dislikes := 0, comments := [],
         updatedAt := 5 },
       { id := "b", url := "u", likes := 0, dislikes := 1, comments := [],
         updatedAt := 5 },
       createPhoto "c" 7] ∧
    (rankPhotos
      [{ id := "a", url := "u", likes := 1, dislikes := 0, comments := [],
         updatedAt := 5 },
       { id := "b", url := "u", likes := 0, dislikes := 1, comments := [],
         updatedAt := 5 },
       createPhoto "c" 7]).Perm
      [{ id := "a", url := "u", likes := 1, dislikes := 0, comments := [],
         updatedAt := 5 },
       { id := "b", url := "u", likes := 0, dislikes := 1, comments := [],
         updatedAt := 5 },
       createPhoto "c" 7] ∧
    List.Sublist
      [{ id := "a", url := "u", likes := 1, dislikes := 0, comments := [],
         updatedAt := 5 },
       { id := "b", url := "u", likes := 0, dislikes := 1, comments := [],
         updatedAt := 5 }]
      (rankPhotos
        [{ id := "a", url := "u", likes := 1, dislikes := 0, comments := [],
           updatedAt := 5 },
         { id := "b", url := "u", likes := 0, dislikes := 1, comments := [],
           updatedAt := 5 },
         createPhoto "c" 7]) :=
  ⟨by decide, by decide,
   (C2_ranking _).1,
   (C2_ranking _).2.2 _ _ (by decide) (by decide) (by decide)⟩

/-- The store returned by `getOrCreatePhoto` keeps the comment cap
invariant: a freshly created photo has an empty ledger. -/
theorem getOrCreatePhoto_cap (freshId : String) (now : Nat)
    (photoId : Option String) (photos : List Photo)
    (hinv : ∀ q ∈ photos, q.comments.length ≤ MAX_COMMENTS_PER_PHOTO) :
    ∀ q ∈ (getOrCreatePhoto freshId now photoId photos).2,
      q.comments.length ≤ MAX_COMMENTS_PER_PHOTO := by
  rcases getOrCreatePhoto_shapes freshId now photoId photos with
    hsame | ⟨pid, -, -, -, hcons⟩
  · rw [hsame]
    exact hinv
  · rw [hcons]
    intro q hq
    rcases List.mem_cons.mp hq with rfl | hq'
    · simp [createPhoto]
    · exact hinv q hq'

/-- Claim C3: after an `addComment` call completes, no ledger exceeds the cap
`MAX_COMMENTS_PER_PHOTO = 80`: under the cap invariant on the store, every
stored photo and the returned photo satisfy the cap afterwards, the ledger of
the target grows to `min (pre + 1) cap` — so the push may exceed the cap only
transiently inside the call — and when the push overflows the cap the oldest
comment is evicted (FIFO). -/
theorem C3_comment_cap (freshId entryId entryTs : String) (now : Nat)
    (text : String) (photoId : Option String) (photos : List Photo)
    (hinv : ∀ q ∈ photos, q.comments.length ≤ MAX_COMMENTS_PER_PHOTO) :
    (∀ q ∈ (addComment freshId entryId entryTs now text photoId photos).2,
        q.comments.length ≤ MAX_COMMENTS_PER_PHOTO) ∧
    (∀ p', (addComment freshId entryId entryTs now text photoId photos).1 = .ok p' →
        p'.comments.length ≤ MAX_COMMENTS_PER_PHOTO) ∧
    (∀ (i : Nat) (st : List Photo) (p₀ : Photo), sanitizeText text ≠ "" →
        getOrCreatePhoto freshId now photoId photos = (some i, st) →
        st[i]? = some p₀ →
        ∃ p', (addComment freshId entryId entryTs now text photoId photos).1 = .ok p' ∧
          p'.comments.length = min (p₀.comments.length + 1) MAX_COMMENTS_PER_PHOTO ∧
          (p₀.comments.length = MAX_COMMENTS_PER_PHOTO →
            p'.comments = p₀.comments.drop 1 ++
              [commentEntry entryId entryTs (sanitizeText text) p₀.id])) := by
  by_cases hcln : sanitizeText text = ""
  · rw [addComment_empty freshId entryId entryTs now text photoId photos hcln]
    refine ⟨hinv, ?_, ?_⟩
    · intro p' h
      simp at h
    · intro i st p₀ hne hres hp
      exact absurd hcln hne
  · have hstcap := getOrCreatePhoto_cap freshId now photoId photos hinv
    rcases hg : getOrCreatePhoto freshId now photoId photos with ⟨oi, st⟩
    rw [hg] at hstcap
    cases oi with
    | none =>
      have hadd : addComment freshId entryId entryTs now text photoId photos =
          (.error .StoreFault, st) := by
        unfold addComment
        rw [if_neg hcln, hg]
      rw [hadd]
      refine ⟨hstcap, ?_, ?_⟩
      · intro p' h
        simp at h
      · intro i st' p₀ hne hres hp
        simp at hres
    | some i =>
      rcases hp : st[i]? with _ | p₀
      · have hadd : addComment freshId entryId entryTs now text photoId photos =
            (.error .StoreFault, st) := by
          unfold addComment
          rw [if_neg hcln, hg]
          simp only [hp]
        rw [hadd]
        refine ⟨hstcap, ?_, ?_⟩
        · intro p' h
          simp at h
        · intro i' st' p₀ hne hres hp'
          injection hres with h1 h2
          injection h1 with h1
          subst h1
          subst h2
          rw [hp] at hp'
          simp at hp'
      · have hcap₀ : p₀.comments.length ≤ MAX_COMMENTS_PER_PHOTO :=
          hstcap p₀ (List.getElem?_mem hp)
        have hadd := addComment_success freshId entryId entryTs now text photoId
          photos i st p₀ hcln hg hp
        rw [hadd]
        refine ⟨?_, ?_, ?_⟩
        · intro q hq
          rcases List.mem_or_eq_of_mem_set hq with hq' | rfl
          · exact hstcap q hq'
          · simp only
            rw [pushComment_length _ _ hcap₀]
            exact Nat.min_le_right _ _
        · intro p' h
          simp only [Except.ok.injEq] at h
          subst h
          simp only
          rw [pushComment_length _ _ hcap₀]
          exact Nat.min_le_right _ _
        · intro i' st' p₀' hne hres hp'
          injection hres with h1 h2
          injection h1 with h1
          subst h1
          subst h2
          rw [hp] at hp'
          injection hp' with hp'
          subst hp'
          refine ⟨_, rfl, ?_, ?_⟩
          · simp only
            rw [pushComment_length _ _ hcap₀]
          · intro hfull
            simp only
            rw [pushComment_overflow _ _ (by omega)]

/-- Witness for C3: appending to a photo whose ledger already holds exactly
`MAX_COMMENTS_PER_PHOTO` comments. -/
theorem C3_comment_cap_witness :
    (∀ q ∈ ([{ id := "a", url := "u", likes := 0, dislikes := 0,
               comments := List.replicate MAX_COMMENTS_PER_PHOTO
                 (commentEntry "i" "t" "c" "a"),
               updatedAt := 0 }] : List Photo),
        q.comments.length ≤ MAX_COMMENTS_PER_PHOTO) ∧
    ((∀ q ∈ (addComment "f" "e" "t" 9 "hi" none
          [{ id := "a", url := "u", likes := 0, dislikes := 0,
             comments := List.replicate MAX_COMMENTS_PER_PHOTO
               (commentEntry "i" "t" "c" "a"),
             updatedAt := 0 }]).2,
        q.comments.length ≤ MAX_COMMENTS_PER_PHOTO) ∧
      (∀ p', (addComment "f" "e" "t" 9 "hi" none
          [{ id := "a", url := "u", likes := 0, dislikes := 0,
             comments := List.replicate MAX_COMMENTS_PER_PHOTO
               (commentEntry "i" "t" "c" "a"),
             updatedAt := 0 }]).1 = .ok p' →
          p'.comments.length ≤ MAX_COMMENTS_PER_PHOTO) ∧
      (∀ (i : Nat) (st : List Photo) (p₀ : Photo), sanitizeText "hi" ≠ "" →
          getOrCreatePhoto "f" 9 none
            [{ id := "a", url := "u", likes := 0, dislikes := 0,
               comments := List.replicate MAX_COMMENTS_PER_PHOTO
                 (commentEntry "i" "t" "c" "a"),
               updatedAt := 0 }] = (some i, st) →
          st[i]? = some p₀ →
          ∃ p', (addComment "f" "e" "t" 9 "hi" none
              [{ id := "a", url := "u", likes := 0, dislikes := 0,
                 comments := List.replicate MAX_COMMENTS_PER_PHOTO
                   (commentEntry "i" "t" "c" "a"),
                 updatedAt := 0 }]).1 = .ok p' ∧
            p'.comments.length = min (p₀.comments.length + 1) MAX_COMMENTS_PER_PHOTO ∧
            (p₀.comments.length = MAX_COMMENTS_PER_PHOTO →
              p'.comments = p₀.comments.drop 1 ++
                [commentEntry "e" "t" (sanitizeText "hi") p₀.id]))) :=
  ⟨by decide,
   C3_comment_cap "f" "e" "t" 9 "hi" none
     [{ id := "a", url := "u", likes := 0, dislikes := 0,
        comments := List.replicate MAX_COMMENTS_PER_PHOTO
          (commentEntry "i" "t" "c" "a"),
        updatedAt := 0 }] (by decide)⟩

/-- Claim C6 counterexample: the identifier `""` is provided and not present
in the one-photo store, yet `getOrCreatePhoto` does not create an item
carrying it — it returns the first item and leaves the store unchanged,
because the code tests JavaScript truthiness (`if (!photoId)`) and the empty
string is falsy. This refutes "with an identifier not present it creates a
new item carrying that identifier". -/
theorem C6_resolve_or_create_counterexample :
    (∀ p ∈ ([createPhoto "a" 0] : List Photo), p.id ≠ "") ∧
    getOrCreatePhoto "f" 9 (some "") [createPhoto "a" 0] =
      (some 0, [createPhoto "a" 0]) ∧
    ∀ q ∈ (getOrCreatePhoto "f" 9 (some "") [createPhoto "a" 0]).2,
      q.id ≠ "" := by
  decide

/-- Claim C6 (amended): on a non-empty store, resolve-or-create with a
provided non-empty identifier already present returns the first matching
item and leaves the store unchanged; with a provided non-empty identifier
not present it creates a new item carrying that identifier, inserts it at
the front of creation order, marks it freshly-updated, and returns it; with
no identifier — or with the empty-string identifier, which the code treats
as absent — it returns the first item in the store; in no case does it
fail. -/
theorem C6_resolve_or_create (freshId : String) (now : Nat)
    (photoId : Option String) (photos : List Photo) (hne : photos ≠ []) :
    (∀ pid i, photoId = some pid → pid ≠ "" →
      photos.findIdx? (fun p => p.id == pid) = some i →
      getOrCreatePhoto freshId now photoId photos = (some i, photos) ∧
      ∃ hlt : i < photos.length, photos[i].id = pid) ∧
    (∀ pid, photoId = some pid → pid ≠ "" →
      photos.findIdx? (fun p => p.id == pid) = none →
      getOrCreatePhoto freshId now photoId photos =
        (some 0, { createPhoto freshId now with id := pid } :: photos) ∧
      ({ createPhoto freshId now with id := pid } : Photo).id = pid ∧
      ({ createPhoto freshId now with id := pid } : Photo).updatedAt = now) ∧
    ((photoId = none ∨ photoId = some "") →
      getOrCreatePhoto freshId now photoId photos = (some 0, photos)) ∧
    (∃ i st, getOrCreatePhoto freshId now photoId photos = (some i, st)) := by
  refine ⟨?_, ?_, ?_, getOrCreatePhoto_isSome freshId now photoId photos hne⟩
  · intro pid i hpid hne' hfind
    subst hpid
    refine ⟨getOrCreatePhoto_found freshId now pid photos i hne' hfind, ?_⟩
    obtain ⟨hlt, hbeq, -⟩ := List.findIdx?_eq_some_iff_getElem.mp hfind
    exact ⟨hlt, by simpa using hbeq⟩
  · intro pid hpid hne' hfind
    subst hpid
    exact ⟨getOrCreatePhoto_create freshId now pid photos hne' hfind, rfl, rfl⟩
  · intro hfalsy
    have ht : idTruthy photoId = false := by
      rcases hfalsy with rfl | rfl <;> simp [idTruthy]
    exact getOrCreatePhoto_falsy freshId now photoId photos ht hne

/-- Witness for C6 (amended) on a one-photo store with an unknown non-empty
identifier. -/
theorem C6_resolve_or_create_witness :
    ([createPhoto "a" 0] : List Photo) ≠ [] ∧
    ((∀ pid i, (some "new" : Option String) = some pid → pid ≠ "" →
        ([createPhoto "a" 0] : List Photo).findIdx? (fun p => p.id == pid) = some i →
        getOrCreatePhoto "f" 9 (some "new") [createPhoto "a" 0] =
          (some i, [createPhoto "a" 0]) ∧
        ∃ hlt : i < ([createPhoto "a" 0] : List Photo).length,
          ([createPhoto "a" 0] : List Photo)[i].id = pid) ∧
      (∀ pid, (some "new" : Option String) = some pid → pid ≠ "" →
        ([createPhoto "a" 0] : List Photo).findIdx? (fun p => p.id == pid) = none →
        getOrCreatePhoto "f" 9 (some "new") [createPhoto "a" 0] =
          (some 0, { createPhoto "f" 9 with id := pid } :: [createPhoto "a" 0]) ∧
        ({ createPhoto "f" 9 with id := pid } : Photo).id = pid ∧
        ({ createPhoto "f" 9 with id := pid } : Photo).updatedAt = 9) ∧
      (((some "new" : Option String) = none ∨ (some "new" : Option String) = some "") →
        getOrCreatePhoto "f" 9 (some "new") [createPhoto "a" 0] =
          (some 0, [createPhoto "a" 0])) ∧
      (∃ i st, getOrCreatePhoto "f" 9 (some "new") [createPhoto "a" 0] =
        (some i, st))) :=
  ⟨by decide, C6_resolve_or_create "f" 9 (some "new") [createPhoto "a" 0] (by decide)⟩

/-- `addReaction` never changes the identifier sequence beyond what
`getOrCreatePhoto` already did: it only overwrites the resolved slot with a
photo of the same identifier. -/
theorem addReaction_ids (freshId : String) (now : Nat) (action : String)
    (photoId : Option String) (photos : List Photo) :
    storeIds (addReaction freshId now action photoId photos).2 =
      storeIds (getOrCreatePhoto freshId now photoId photos).2 := by
  unfold addReaction
  rcases hg : getOrCreatePhoto freshId now photoId photos with ⟨oi, st⟩
  cases oi with
  | none => rfl
  | some i =>
    dsimp only
    rcases hp : st[i]? with _ | p₀
    · rfl
    · apply storeIds_set st i p₀ _ hp
      by_cases ha : action = "dislike" <;> simp [ha]

/-- `addComment` either leaves the store untouched (rejection) or changes
only the resolved slot, keeping its identifier. -/
theorem addComment_ids (freshId entryId entryTs : String) (now : Nat)
    (text : String) (photoId : Option String) (photos : List Photo) :
    (addComment freshId entryId entryTs now text photoId photos).2 = photos ∨
    storeIds (addComment freshId entryId entryTs now text photoId photos).2 =
      storeIds (getOrCreatePhoto freshId now photoId photos).2 := by
  by_cases hcln : sanitizeText text = ""
  · left
    rw [addComment_empty freshId entryId entryTs now text photoId photos hcln]
  · right
    unfold addComment
    rw [if_neg hcln]
    rcases hg : getOrCreatePhoto freshId now photoId photos with ⟨oi, st⟩
    cases oi with
    | none => rfl
    | some i =>
      dsimp only
      rcases hp : st[i]? with _ | p₀
      · rfl
      · exact storeIds_set st i p₀ _ hp rfl

/-- `getOrCreatePhoto` preserves distinctness of identifiers and keeps the
old identifier sequence as a sublist of the new one. -/
theorem getOrCreatePhoto_nodup (freshId : String) (now : Nat)
    (photoId : Option String) (photos : List Photo)
    (hnd : (storeIds photos).Nodup) :
    (storeIds (getOrCreatePhoto freshId now photoId photos).2).Nodup ∧
    List.Sublist (storeIds photos)
      (storeIds (getOrCreatePhoto freshId now photoId photos).2) := by
  rcases getOrCreatePhoto_shapes freshId now photoId photos with
    hsame | ⟨pid, -, -, hnotin, hcons⟩
  · rw [hsame]
    exact ⟨hnd, List.Sublist.refl _⟩
  · rw [hcons]
    have hpid_notin : pid ∉ storeIds photos := by
      intro hmem
      rcases List.mem_map.mp hmem with ⟨p, hp, hid⟩
      exact hnotin p hp hid
    constructor
    · simp only [storeIds, List.map_cons]
      refine List.nodup_cons.mpr ⟨?_, hnd⟩
      simpa [storeIds] using hpid_notin
    · simp only [storeIds, List.map_cons]
      exact List.sublist_cons_self _ _

/-- The identifiers after `getFeed`: the old ones followed by the ids the
generator supplied while growing to `cursor + limit + 2`. -/
theorem getFeed_ids (gen : Nat → String × Nat) (cursor limit : Nat)
    (photos : List Photo) :
    storeIds (getFeed gen cursor limit photos).2 =
      storeIds photos ++
        (List.range' photos.length (cursor + limit + 2 - photos.length)).map
          (fun k => (gen k).1) :=
  storeIds_ensurePhotos gen (cursor + limit + 2) photos

/-- Claim C7: identifiers in the store stay unique, and once assigned an
identifier keeps resolving to the same item for the process lifetime: no
operation deletes, reassigns or shadows an identifier — each operation keeps
the identifier sequence duplicate-free (assuming the id generator supplies
fresh, pairwise distinct ids, as `Date.now()` plus random hex is meant to)
and extends it at most by insertion, so the old identifier sequence survives
as a sublist. -/
theorem C7_identifier_stability (freshId entryId entryTs : String) (now : Nat)
    (action text : String) (photoId : Option String)
    (gen : Nat → String × Nat) (cursor limit : Nat) (photos : List Photo)
    (hnd : (storeIds photos).Nodup)
    (hg1 : ∀ j, j < cursor + limit + 2 → ∀ k, k < cursor + limit + 2 →
      j ≠ k → (gen j).1 ≠ (gen k).1)
    (hg2 : ∀ k, k < cursor + limit + 2 → (gen k).1 ∉ storeIds photos) :
    ((storeIds (getOrCreatePhoto freshId now photoId photos).2).Nodup ∧
      List.Sublist (storeIds photos)
        (storeIds (getOrCreatePhoto freshId now photoId photos).2)) ∧
    ((storeIds (addReaction freshId now action photoId photos).2).Nodup ∧
      List.Sublist (storeIds photos)
        (storeIds (addReaction freshId now action photoId photos).2)) ∧
    ((storeIds (addComment freshId entryId entryTs now text photoId photos).2).Nodup ∧
      List.Sublist (storeIds photos)
        (storeIds (addComment freshId entryId entryTs now text photoId photos).2)) ∧
    ((storeIds (getFeed gen cursor limit photos).2).Nodup ∧
      List.Sublist (storeIds photos)
        (storeIds (getFeed gen cursor limit photos).2)) := by
  have hbase := getOrCreatePhoto_nodup freshId now photoId photos hnd
  refine ⟨hbase, ?_, ?_, ?_⟩
  · rw [addReaction_ids]
    exact hbase
  · rcases addComment_ids freshId entryId entryTs now text photoId photos with h | h
    · rw [h]
      exact ⟨hnd, List.Sublist.refl _⟩
    · rw [h]
      exact hbase
  · rw [getFeed_ids]
    constructor
    · refine List.Nodup.append hnd ?_ ?_
      · refine List.Nodup.map_on ?_ (List.nodup_range' _ _)
        intro x hx y hy hxy
        by_contra hne
        rcases List.mem_range'_1.mp hx with ⟨hx1, hx2⟩
        rcases List.mem_range'_1.mp hy with ⟨hy1, hy2⟩
        exact hg1 x (by omega) y (by omega) hne hxy
      · rw [List.disjoint_left]
        intro a ha hmem
        rcases List.mem_map.mp hmem with ⟨k, hk, hgk⟩
        rcases List.mem_range'_1.mp hk with ⟨hk1, hk2⟩
        refine hg2 k (by omega) ?_
        rw [hgk]
        exact ha
    · exact List.sublist_append_left _ _

/-- Witness for C7 on a one-photo store, with a generator producing two
distinct fresh ids for the two photos `getFeed` must create. -/
theorem C7_identifier_stability_witness :
    (storeIds [createPhoto "a" 0]).Nodup ∧
    (∀ j, j < 0 + 0 + 2 → ∀ k, k < 0 + 0 + 2 → j ≠ k →
      ((fun k => (if k = 0 then "g0" else "g1", k)) j).1 ≠
        ((fun k => (if k = 0 then "g0" else "g1", k)) k).1) ∧
    (∀ k, k < 0 + 0 + 2 →
      ((fun k => (if k = 0 then "g0" else "g1", k)) k).1 ∉
        storeIds [createPhoto "a" 0]) ∧
    (((storeIds (getOrCreatePhoto "f" 9 (some "new") [createPhoto "a" 0]).2).Nodup ∧
      List.Sublist (storeIds [createPhoto "a" 0])
        (storeIds (getOrCreatePhoto "f" 9 (some "new") [createPhoto "a" 0]).2)) ∧
    ((storeIds (addReaction "f" 9 "like" (some "new") [createPhoto "a" 0]).2).Nodup ∧
      List.Sublist (storeIds [createPhoto "a" 0])
        (storeIds (addReaction "f" 9 "like" (some "new") [createPhoto "a" 0]).2)) ∧
    ((storeIds (addComment "f" "e" "t" 9 "hi" (some "new") [createPhoto "a" 0]).2).Nodup ∧
      List.Sublist (storeIds [createPhoto "a" 0])
        (storeIds (addComment "f" "e" "t" 9 "hi" (some "new") [createPhoto "a" 0]).2)) ∧
    ((storeIds (getFeed (fun k => (if k = 0 then "g0" else "g1", k)) 0 0 [createPhoto "a" 0]).2).Nodup ∧
      List.Sublist (storeIds [createPhoto "a" 0])
        (storeIds (getFeed (fun k => (if k = 0 then "g0" else "g1", k)) 0 0 [createPhoto "a" 0]).2))) :=
  ⟨by decide, by decide, by decide,
   C7_identifier_stability "f" "e" "t" 9 "like" "hi" (some "new")
     (fun k => (if k = 0 then "g0" else "g1", k)) 0 0 [createPhoto "a" 0]
     (by decide) (by decide) (by decide)⟩

/-- `getOrCreatePhoto` never shrinks the store. -/
theorem getOrCreatePhoto_length (freshId : String) (now : Nat)
    (photoId : Option String) (photos : List Photo) :
    photos.length ≤ ((getOrCreatePhoto freshId now photoId photos).2).length := by
  rcases getOrCreatePhoto_shapes freshId now photoId photos with
    hsame | ⟨pid, -, -, -, hcons⟩
  · rw [hsame]
  · rw [hcons]
    simp only [List.length_cons]
    omega

/-- Claim C9: `getFeed` first grows the store to at least
`cursor + limit + 2` items before ranking and slicing, so the page it
returns always holds exactly `limit` items — never a short page through the
public interface; no operation shrinks the store, and the seeded initial
store holds exactly `INITIAL_PHOTO_COUNT = 18` items, so the store length
never drops below 18. -/
theorem C9_growth_margin (gen : Nat → String × Nat) (cursor limit : Nat)
    (freshId entryId entryTs : String) (now : Nat) (action text : String)
    (photoId : Option String) (photos : List Photo) (hl : 0 < limit) :
    ((getFeed gen cursor limit photos).2).length =
      max photos.length (cursor + limit + 2) ∧
    cursor + limit + 2 ≤ ((getFeed gen cursor limit photos).2).length ∧
    ((getFeed gen cursor limit photos).1).photos.length = limit ∧
    photos.length ≤ ((getFeed gen cursor limit photos).2).length ∧
    photos.length ≤ ((getOrCreatePhoto freshId now photoId photos).2).length ∧
    photos.length ≤ ((addReaction freshId now action photoId photos).2).length ∧
    photos.length ≤
      ((addComment freshId entryId entryTs now text photoId photos).2).length ∧
    (initialPhotos gen).length = INITIAL_PHOTO_COUNT := by
  have hlen : ((getFeed gen cursor limit photos).2).length =
      max photos.length (cursor + limit + 2) :=
    ensurePhotos_length gen (cursor + limit + 2) photos
  have hgo := getOrCreatePhoto_length freshId now photoId photos
  have hra : ((addReaction freshId now action photoId photos).2).length =
      ((getOrCreatePhoto freshId now photoId photos).2).length := by
    have h := congrArg List.length (addReaction_ids freshId now action photoId photos)
    simpa [storeIds] using h
  have hac : photos.length ≤
      ((addComment freshId entryId entryTs now text photoId photos).2).length := by
    rcases addComment_ids freshId entryId entryTs now text photoId photos with h | h
    · rw [h]
    · have h' := congrArg List.length h
      simp only [storeIds, List.length_map] at h'
      omega
  have hpage : ((getFeed gen cursor limit photos).1).photos.length = limit := by
    show ((jsSlice (rankPhotos (ensurePhotos gen (cursor + limit + 2) photos))
        cursor (cursor + limit)).map serializePhoto).length = limit
    rw [List.length_map]
    unfold jsSlice
    rw [List.length_drop, List.length_take]
    unfold rankPhotos
    rw [List.length_mergeSort]
    have h := ensurePhotos_length gen (cursor + limit + 2) photos
    omega
  have hinit : (initialPhotos gen).length = INITIAL_PHOTO_COUNT := by
    unfold initialPhotos
    rw [ensurePhotos_length]
    simp
  exact ⟨hlen, by omega, hpage, by omega, hgo, by omega, hac, hinit⟩

/-- Witness for C9: cursor 3, limit 2 on a one-photo store. -/
theorem C9_growth_margin_witness :
    0 < 2 ∧
    (((getFeed (fun k => ("g", k)) 3 2 [createPhoto "a" 0]).2).length =
        max ([createPhoto "a" 0] : List Photo).length (3 + 2 + 2) ∧
      3 + 2 + 2 ≤ ((getFeed (fun k => ("g", k)) 3 2 [createPhoto "a" 0]).2).length ∧
      ((getFeed (fun k => ("g", k)) 3 2 [createPhoto "a" 0]).1).photos.length = 2 ∧
      ([createPhoto "a" 0] : List Photo).length ≤
        ((getFeed (fun k => ("g", k)) 3 2 [createPhoto "a" 0]).2).length ∧
      ([createPhoto "a" 0] : List Photo).length ≤
        ((getOrCreatePhoto "f" 9 (some "new") [createPhoto "a" 0]).2).length ∧
      ([createPhoto "a" 0] : List Photo).length ≤
        ((addReaction "f" 9 "like" (some "new") [createPhoto "a" 0]).2).length ∧
      ([createPhoto "a" 0] : List Photo).length ≤
        ((addComment "f" "e" "t" 9 "hi" (some "new") [createPhoto "a" 0]).2).length ∧
      (initialPhotos (fun k => ("g", k))).length = INITIAL_PHOTO_COUNT) :=
  ⟨by decide,
   C9_growth_margin (fun k => ("g", k)) 3 2 "f" "e" "t" 9 "like" "hi"
     (some "new") [createPhoto "a" 0] (by decide)⟩

end PhotoLiker
